import Mathlib

/-!
# Verification of the blog-creator editor core

A shallow embedding of `src/main.rs`: the persisted document schema
(`BlogPost`), the in-editor state (`Post`), the load/save conversions
(`impl From<BlogPost> for Post` and `impl From<Post> for BlogPost`), and the
event-driven `Post::update` transition function, together with proofs of the
specified properties.

Rust strings are modelled as lists of characters (`RStr`); external
collaborators (file dialogs, the file system, image fetch, the markdown
renderer, the clock) are supplied through an explicit environment record, and
a Rust panic is modelled as `Option.none`.
-/

/-- Rust `&str` / `String`, modelled as the list of its characters. -/
abbrev RStr := List Char

/-- Rust `str::split(sep)` for a one-character separator, collected to a list.
`"".split(sep)` yields `[""]`; a trailing separator yields a trailing `""`. -/
def splitOnChar (sep : Char) : RStr → List RStr
  | [] => [[]]
  | c :: cs =>
    match splitOnChar sep cs with
    | [] => [[]]
    | r :: rs => if c = sep then [] :: r :: rs else (c :: r) :: rs

/-- Rust `Vec::<String>::join(sep)` for a one-character separator. -/
def joinSep (sep : Char) : List RStr → RStr
  | [] => []
  | [t] => t
  | t :: ts => t ++ sep :: joinSep sep ts

/-- Rust `char::is_whitespace`: the Unicode `White_Space` property. -/
def rustIsWhitespace (c : Char) : Bool :=
  c.toNat ∈ ([0x09, 0x0A, 0x0B, 0x0C, 0x0D, 0x20, 0x85, 0xA0, 0x1680,
    0x2000, 0x2001, 0x2002, 0x2003, 0x2004, 0x2005, 0x2006, 0x2007, 0x2008,
    0x2009, 0x200A, 0x2028, 0x2029, 0x202F, 0x205F, 0x3000] : List Nat)

/-- Rust `str::trim`: strip leading and trailing whitespace. -/
def rustTrim (s : RStr) : RStr :=
  ((s.dropWhile rustIsWhitespace).reverse.dropWhile rustIsWhitespace).reverse

/-- Value of a list of decimal digit characters, most significant first. -/
def digitsVal (ds : RStr) : Nat :=
  ds.foldl (fun acc c => acc * 10 + (c.toNat - 48)) 0

/-- Rust `str::parse::<u32>()`: an optional leading `+`, then one or more
ASCII digits, failing on overflow past `u32::MAX`. -/
def parseU32 (s : RStr) : Option Nat :=
  let ds := match s with
    | '+' :: rest => rest
    | other => other
  if ds ≠ [] ∧ ds.all Char.isDigit then
    if digitsVal ds < 4294967296 then some (digitsVal ds) else none
  else none

/-- Decimal digit characters of `n`, most significant first, via the usual
fuelled division loop (fuel `n + 1` always suffices). -/
def toDigitsAux : Nat → Nat → RStr → RStr
  | 0, _, acc => acc
  | fuel + 1, n, acc =>
    if n < 10 then Char.ofNat (48 + n) :: acc
    else toDigitsAux fuel (n / 10) (Char.ofNat (48 + n % 10) :: acc)

/-- Decimal rendering of `n` (`0` renders as `"0"`). -/
def natToDigits (n : Nat) : RStr := toDigitsAux (n + 1) n []

/-- Rust `format!("{:02}", n)`: decimal rendering left-padded with `0` to
width two. -/
def pad2 (n : Nat) : RStr :=
  if (natToDigits n).length < 2 then '0' :: natToDigits n else natToDigits n

/-- `iced_aw::date_picker::Date`: a plain year/month/day record. -/
structure Date where
  year : Int
  month : Nat
  day : Nat
  deriving DecidableEq, Repr

/-- `iced_aw::time_picker::Period`. -/
inductive Period
  | h24
  | am
  | pm
  deriving DecidableEq, Repr

/-- `Display for Period`: `H24` renders as nothing, `Am`/`Pm` as a space and
the marker. -/
def Period.render : Period → RStr
  | .h24 => []
  | .am => [' ', 'A', 'M']
  | .pm => [' ', 'P', 'M']

/-- `iced_aw::time_picker::Time`. -/
inductive Time
  | hm (hour minute : Nat) (period : Period)
  | hms (hour minute second : Nat) (period : Period)
  deriving DecidableEq, Repr

/-- `Display for Time` (`Time::to_string()`): two-digit-padded components
separated by `:`, followed by the period marker. -/
def Time.render : Time → RStr
  | .hm h m p => pad2 h ++ [':'] ++ pad2 m ++ p.render
  | .hms h m s p => pad2 h ++ [':'] ++ pad2 m ++ [':'] ++ pad2 s ++ p.render

/-- `chrono::DateTime<Utc>` at whole-second precision, modelled by its
calendar fields; `Valid` below characterises the values representable as a
`DateTime<Utc>`. -/
structure Timestamp where
  year : Int
  month : Nat
  day : Nat
  hour : Nat
  minute : Nat
  second : Nat
  deriving DecidableEq, Repr

/-- Gregorian leap-year rule. -/
def isLeapYear (y : Int) : Bool :=
  (y % 4 == 0 && y % 100 != 0) || (y % 400 == 0)

/-- Days in a month of the proleptic Gregorian calendar. -/
def daysInMonth (y : Int) (m : Nat) : Nat :=
  if m = 2 then (if isLeapYear y then 29 else 28)
  else if m = 4 ∨ m = 6 ∨ m = 9 ∨ m = 11 then 30
  else 31

/-- Modelled from the spec and chrono's documented semantics: the components
accepted by `Utc.with_ymd_and_hms`, i.e. a valid proleptic-Gregorian
date within chrono's supported year range and a valid 24-hour clock time. -/
def validYmdHms (y : Int) (mo d h mi s : Nat) : Bool :=
  (-262144 ≤ y && y ≤ 262143) &&
  (1 ≤ mo && mo ≤ 12) &&
  (1 ≤ d && d ≤ daysInMonth y mo) &&
  (h ≤ 23 && mi ≤ 59 && s ≤ 59)

/-- `Utc.with_ymd_and_hms(y, mo, d, h, mi, s)`: `LocalResult::Single` on
valid components (for `Utc` never ambiguous), `LocalResult::None` otherwise;
`none` here corresponds to `LocalResult::None`, whose `.unwrap()` panics. -/
def withYmdAndHms (y : Int) (mo d h mi s : Nat) : Option Timestamp :=
  if validYmdHms y mo d h mi s then some ⟨y, mo, d, h, mi, s⟩ else none

/-- A `Timestamp` that a `chrono::DateTime<Utc>` can actually hold. -/
def Timestamp.Valid (t : Timestamp) : Prop :=
  validYmdHms t.year t.month t.day t.hour t.minute t.second = true

instance (t : Timestamp) : Decidable t.Valid := by
  unfold Timestamp.Valid; infer_instance

/-- The on-disk schema `BlogPost` (serde JSON). -/
structure BlogPost where
  title : RStr
  body : RStr
  image_url : RStr
  summary : RStr
  timestamp : Timestamp
  tags : List RStr
  deriving DecidableEq, Repr

/-- The active tab, `enum TabID`. -/
inductive TabID
  | content
  | meta
  deriving DecidableEq, Repr

/-- `TabID::default()` is `Content`. -/
def TabID.default : TabID := .content

/-- The in-editor state `struct Post`.

`Item` stands for the opaque `iced::widget::markdown::Item` and `Handle` for
the opaque `iced::widget::image::Handle`; the editor buffer
`iced::widget::text_editor::Content` is, per the spec, modelled by the full
text it holds (`Content::with_text` stores the text, `Content::text()`
returns it). -/
structure Post (Item Handle : Type) where
  content : RStr
  parsed : List Item
  name : RStr
  description : RStr
  tags : RStr
  image_url : RStr
  savepath : Option RStr
  selected_tab : TabID
  date : Date
  show_picker : Bool
  time : Time
  show_picker_time : Bool
  image : Option Handle

/-- Load conversion, `impl From<BlogPost> for Post`: copy the scalar fields,
join the tags with `","`, split the timestamp into a calendar date and a
24-hour clock time, and reset every transient field. -/
def postFromBlogPost {Item Handle : Type} (post : BlogPost) : Post Item Handle where
  content := post.body
  parsed := []
  name := post.title
  description := post.summary
  tags := joinSep ',' post.tags
  image_url := post.image_url
  savepath := none
  selected_tab := TabID.default
  date := ⟨post.timestamp.year, post.timestamp.month, post.timestamp.day⟩
  show_picker := false
  time := .hms post.timestamp.hour post.timestamp.minute post.timestamp.second .h24
  show_picker_time := false
  image := none

/-- The hour/minute/second extracted from a rendered time string exactly as
the save conversion does: split on `":"`, each component via
`next().unwrap_or("0").parse().unwrap_or_default()`. -/
def parseTimeComponents (s : RStr) : Nat × Nat × Nat :=
  let parts := splitOnChar ':' s
  ((parseU32 (parts.getD 0 ['0'])).getD 0,
   (parseU32 (parts.getD 1 ['0'])).getD 0,
   (parseU32 (parts.getD 2 ['0'])).getD 0)

/-- Save conversion, `impl From<Post> for BlogPost` (and the textually
identical `impl From<&Post> for BlogPost`): copy the scalar fields, split the
tags string on `","` trimming each tag, re-render and re-parse the stored
clock time, and recombine date and time with `Utc.with_ymd_and_hms(..)`,
whose `.unwrap()` panics (`none`) on an invalid combination. -/
def blogPostFromPost {Item Handle : Type} (post : Post Item Handle) : Option BlogPost :=
  let hms := parseTimeComponents post.time.render
  match withYmdAndHms post.date.year post.date.month post.date.day
      hms.1 hms.2.1 hms.2.2 with
  | some ts => some
      { title := post.name
        body := post.content
        image_url := post.image_url
        summary := post.description
        timestamp := ts
        tags := (splitOnChar ',' post.tags).map rustTrim }
  | none => none

/-- The UI events, `enum Message`. The `text_editor::Action` payload of
`EditContent` is, per the spec, the text-editing transformation it performs
on the body buffer (insert/delete/cursor-move), modelled as the induced map
on the buffer text. -/
inductive Message
  | linkClicked (url : RStr)
  | editContent (act : RStr → RStr)
  | editTitle (title : RStr)
  | editSummary (summary : RStr)
  | editTags (tags : RStr)
  | editImageUrl (url : RStr)
  | submitImageUrl (url : RStr)
  | tabSelected (id : TabID)
  | loadFile
  | saveFile
  | saveToFile
  | chooseDate
  | submitDate (date : Date)
  | cancelDate
  | chooseTime
  | submitTime (time : Time)
  | cancelTime

/-- Outcome of `File::open` + `serde_json::from_reader` in `load_from_file`:
the open can fail, the parse can fail (which panics), or a `BlogPost` is
produced. -/
inductive ReadResult
  | openErr
  | parseErr
  | ok (post : BlogPost)

/-- Modelled from the spec: the external collaborators invoked synchronously
from `Post::update` — the file dialogs (`select_file`, `save_file`), the file
system (`File::open`/`File::create`), the image fetch, the markdown renderer
(`markdown::parse`, a deterministic function of the text), and the clock used
by `Post::default()` (`Date::today()`, `Time::now_hms(true)`). -/
structure Env (Item Handle : Type) where
  selectFileResult : Option RStr
  saveFileResult : RStr → Option RStr
  readFile : RStr → ReadResult
  createOk : RStr → Bool
  fetchResult : RStr → Option Handle
  parse : RStr → List Item
  todayDate : Date
  nowHour : Nat
  nowMinute : Nat
  nowSecond : Nat

/-- `impl Default for Post`: empty text fields, no save path, `Content` tab,
today's date, the current 24-hour clock time, no pickers, no image. -/
def defaultPost {Item Handle : Type} (env : Env Item Handle) : Post Item Handle where
  content := []
  parsed := []
  name := []
  description := []
  tags := []
  image_url := []
  savepath := none
  selected_tab := TabID.default
  date := env.todayDate
  show_picker := false
  time := .hms env.nowHour env.nowMinute env.nowSecond .h24
  show_picker_time := false
  image := none

/-- A file write performed by `save_to_file`: the path and the serialized
document. -/
abbrev FileWrite := RStr × BlogPost

/-- `fn save_to_file`: on `File::create` success, serialize
`BlogPost::from(state)` (whose date/time `.unwrap()` can panic, `none`) and
write it; on create failure, silently do nothing. -/
def saveToFileFn {Item Handle : Type} (env : Env Item Handle) (path : RStr)
    (state : Post Item Handle) : Option (List FileWrite) :=
  if env.createOk path then
    match blogPostFromPost state with
    | some bp => some [(path, bp)]
    | none => none
  else some []

/-- `fn load_from_file`: open failure falls back to `Post::default()`; a
successful open whose JSON fails to parse panics (`none`); otherwise the
parsed `BlogPost` is converted into a `Post`. -/
def loadFromFile {Item Handle : Type} (env : Env Item Handle) (path : RStr) :
    Option (Post Item Handle) :=
  match env.readFile path with
  | .openErr => some (defaultPost env)
  | .parseErr => none
  | .ok bp => some (postFromBlogPost bp)

/-- The `match message` body of `Post::update`, before the unconditional
preview recomputation; returns the updated state and the file writes
performed, or `none` for a panic. -/
def updateStep {Item Handle : Type} (env : Env Item Handle)
    (st : Post Item Handle) : Message → Option (Post Item Handle × List FileWrite)
  | .linkClicked _ => some (st, [])
  | .editContent act => some ({ st with content := act st.content }, [])
  | .tabSelected id => some ({ st with selected_tab := id }, [])
  | .editTitle title => some ({ st with name := title }, [])
  | .editSummary summary => some ({ st with description := summary }, [])
  | .editTags tags => some ({ st with tags := tags }, [])
  | .editImageUrl url => some ({ st with image_url := url }, [])
  | .submitImageUrl url =>
    match env.fetchResult url with
    | some handle => some ({ st with image := some handle }, [])
    | none => some ({ st with image := none }, [])
  | .chooseDate => some ({ st with show_picker := true }, [])
  | .submitDate date => some ({ st with date := date, show_picker := false }, [])
  | .cancelDate => some ({ st with show_picker := false }, [])
  | .chooseTime => some ({ st with show_picker_time := true }, [])
  | .submitTime time => some ({ st with time := time, show_picker_time := false }, [])
  | .cancelTime => some ({ st with show_picker_time := false }, [])
  | .loadFile =>
    match env.selectFileResult with
    | some path =>
      (loadFromFile env path).map fun newState =>
        ({ newState with savepath := some path, selected_tab := st.selected_tab }, [])
    | none => some (st, [])
  | .saveFile =>
    let st1 :=
      match st.savepath with
      | none =>
        match env.saveFileResult st.name with
        | some path => { st with savepath := some path }
        | none => st
      | some _ => st
    match st1.savepath with
    | some path => (saveToFileFn env path st1).map fun ws => (st1, ws)
    | none => some (st1, [])
  | .saveToFile =>
    let st1 := { st with savepath := env.saveFileResult st.name }
    match st1.savepath with
    | some path => (saveToFileFn env path st1).map fun ws => (st1, ws)
    | none => some (st1, [])

/-- `Post::update`: process the event, then unconditionally recompute the
markdown preview from the current body text
(`self.parsed = markdown::parse(&self.content.text()).collect()`). -/
def update {Item Handle : Type} (env : Env Item Handle) (st : Post Item Handle)
    (msg : Message) : Option (Post Item Handle × List FileWrite) :=
  (updateStep env st msg).map fun r =>
    ({ r.1 with parsed := env.parse r.1.content }, r.2)

/-- Process a sequence of events, accumulating the file writes; a panic
anywhere aborts the run. -/
def updates {Item Handle : Type} (env : Env Item Handle) (st : Post Item Handle) :
    List Message → Option (Post Item Handle × List FileWrite)
  | [] => some (st, [])
  | msg :: msgs => do
    let (st1, ws) ← update env st msg
    let (st2, ws2) ← updates env st1 msgs
    pure (st2, ws ++ ws2)

/-- Rust `char::is_control`: the Unicode `Cc` category. -/
def isControlChar (c : Char) : Bool :=
  c.toNat < 0x20 || (0x7F ≤ c.toNat && c.toNat ≤ 0x9F)

/-- No character of the string is a control character. -/
def noControl (s : RStr) : Bool := s.all fun c => !isControlChar c

theorem splitOnChar_ne_nil (sep : Char) (s : RStr) : splitOnChar sep s ≠ [] := by
  cases s with
  | nil => simp [splitOnChar]
  | cons c cs =>
    rw [splitOnChar]
    cases splitOnChar sep cs with
    | nil => simp
    | cons r rs =>
      by_cases hc : c = sep <;> simp [hc]

theorem splitOnChar_not_mem (sep : Char) (a : RStr) (h : sep ∉ a) :
    splitOnChar sep a = [a] := by
  induction a with
  | nil => rfl
  | cons c cs ih =>
    simp only [List.mem_cons, not_or] at h
    rw [splitOnChar, ih h.2]
    simp [Ne.symm h.1]

theorem splitOnChar_append (sep : Char) (a b : RStr) (h : sep ∉ a) :
    splitOnChar sep (a ++ sep :: b) = a :: splitOnChar sep b := by
  induction a with
  | nil =>
    obtain ⟨r, rs, hb⟩ := List.exists_cons_of_ne_nil (splitOnChar_ne_nil sep b)
    rw [List.nil_append, splitOnChar, hb]
    simp [hb]
  | cons c cs ih =>
    simp only [List.mem_cons, not_or] at h
    rw [List.cons_append, splitOnChar, ih h.2]
    simp [Ne.symm h.1]

theorem splitOnChar_joinSep (sep : Char) (ts : List RStr) (hne : ts ≠ [])
    (h : ∀ t ∈ ts, sep ∉ t) : splitOnChar sep (joinSep sep ts) = ts := by
  induction ts with
  | nil => exact absurd rfl hne
  | cons t ts ih =>
    cases ts with
    | nil => exact splitOnChar_not_mem sep t (h t (by simp))
    | cons t2 ts2 =>
      rw [show joinSep sep (t :: t2 :: ts2) = t ++ sep :: joinSep sep (t2 :: ts2) from rfl,
        splitOnChar_append sep t _ (h t (by simp)),
        ih (by simp) (fun x hx => h x (List.mem_cons_of_mem _ hx))]

theorem map_rustTrim_eq_self (ts : List RStr) (h : ∀ t ∈ ts, rustTrim t = t) :
    ts.map rustTrim = ts := by
  induction ts with
  | nil => rfl
  | cons t ts ih =>
    rw [List.map_cons, h t (by simp), ih (fun x hx => h x (List.mem_cons_of_mem _ hx))]

theorem pad2_parse (n : Nat) (h : n < 60) :
    parseU32 (pad2 n) = some n ∧ ':' ∉ pad2 n := by
  revert h; revert n; decide

theorem parseTimeComponents_render_hms (h m s : Nat)
    (hh : h < 60) (hm : m < 60) (hs : s < 60) :
    parseTimeComponents (Time.render (.hms h m s .h24)) = (h, m, s) := by
  have ph := pad2_parse h hh
  have pm := pad2_parse m hm
  have ps := pad2_parse s hs
  have hsplit : splitOnChar ':' (Time.render (.hms h m s .h24)) =
      [pad2 h, pad2 m, pad2 s] := by
    rw [Time.render]
    rw [show Period.render .h24 = [] from rfl, List.append_nil]
    simp only [List.append_assoc, List.singleton_append, List.cons_append,
      List.nil_append]
    rw [splitOnChar_append _ _ _ ph.2, splitOnChar_append _ _ _ pm.2,
      splitOnChar_not_mem _ _ ps.2]
  rw [parseTimeComponents, hsplit]
  simp [ph.1, pm.1, ps.1]

/-- Components of a valid timestamp, unpacked from the `Bool` conjunction. -/
theorem Timestamp.Valid.bounds {t : Timestamp} (h : t.Valid) :
    t.hour < 60 ∧ t.minute < 60 ∧ t.second < 60 := by
  unfold Timestamp.Valid validYmdHms at h
  simp only [Bool.and_eq_true, decide_eq_true_eq] at h
  omega

/-- C1 (amended). For any `PersistedPost` whose tag list is non-empty, whose
tags are all non-empty, whitespace-trimmed, comma-free and non-duplicate, and
whose title, body, image_url and summary contain no control characters,
converting to `Post` (load) and back to `BlogPost` (save) reproduces the post
exactly in every field, including body and timestamp. -/
theorem load_save_roundtrip (Item Handle : Type) (bp : BlogPost)
    (hvalid : bp.timestamp.Valid)
    (hne : bp.tags ≠ [])
    (htags : ∀ t ∈ bp.tags, t ≠ [] ∧ rustTrim t = t ∧ ',' ∉ t)
    (hnodup : bp.tags.Nodup)
    (hctrl : noControl bp.title ∧ noControl bp.body ∧
      noControl bp.image_url ∧ noControl bp.summary) :
    blogPostFromPost (@postFromBlogPost Item Handle bp) =
      some bp := by
  obtain ⟨hh, hm, hs⟩ := hvalid.bounds
  obtain ⟨title, body, url, summary, ⟨y, mo, d, h, mi, s⟩, tags⟩ := bp
  simp only [Timestamp.Valid] at hvalid
  simp only at hh hm hs hne htags
  rw [blogPostFromPost, postFromBlogPost]
  simp only [parseTimeComponents_render_hms _ _ _ hh hm hs, withYmdAndHms, hvalid,
    if_true, splitOnChar_joinSep ',' tags hne (fun t ht => (htags t ht).2.2),
    map_rustTrim_eq_self tags (fun t ht => (htags t ht).2.1)]

/-- C1 witness: a concrete post satisfying all the hypotheses round-trips. -/
theorem load_save_roundtrip_witness :
    (Timestamp.Valid ⟨2024, 1, 15, 10, 30, 0⟩) ∧
    blogPostFromPost (@postFromBlogPost Nat Nat
        ⟨['T'], ['B'], ['u'], ['s'], ⟨2024, 1, 15, 10, 30, 0⟩, [['a'], ['b']]⟩) =
      some ⟨['T'], ['B'], ['u'], ['s'], ⟨2024, 1, 15, 10, 30, 0⟩, [['a'], ['b']]⟩ :=
  ⟨by decide,
    load_save_roundtrip Nat Nat _ (by decide) (by decide) (by decide) (by decide)
      (by decide)⟩

/-- C1 counterexample: the empty tag list satisfies every hypothesis of the
claim as stated (vacuously: all tags non-empty, trimmed, non-duplicate; no
control characters anywhere; valid timestamp), yet the round trip turns the
empty tag list into a one-element list holding the empty string. -/
theorem load_save_roundtrip_counterexample :
    (Timestamp.Valid ⟨2024, 1, 15, 10, 30, 0⟩) ∧
    (∀ t ∈ ([] : List RStr), t ≠ [] ∧ rustTrim t = t) ∧
    ([] : List RStr).Nodup ∧
    blogPostFromPost (@postFromBlogPost Nat Nat
        ⟨[], [], [], [], ⟨2024, 1, 15, 10, 30, 0⟩, []⟩) ≠
      some ⟨[], [], [], [], ⟨2024, 1, 15, 10, 30, 0⟩, []⟩ := by
  decide

/-- C2 (amended). The tag round-trip (join with `","` on load, split on `","`
with per-tag trimming on save) reproduces the original tag sequence whenever
the tag list is non-empty and every tag is non-empty, has no leading or
trailing whitespace, and contains no comma. -/
theorem tag_roundtrip (ts : List RStr) (hne : ts ≠ [])
    (h : ∀ t ∈ ts, t ≠ [] ∧ rustTrim t = t ∧ ',' ∉ t) :
    (splitOnChar ',' (joinSep ',' ts)).map rustTrim = ts := by
  rw [splitOnChar_joinSep ',' ts hne (fun t ht => (h t ht).2.2),
    map_rustTrim_eq_self ts (fun t ht => (h t ht).2.1)]

/-- C2 witness: a concrete two-tag list round-trips. -/
theorem tag_roundtrip_witness :
    ([['a'], ['b']] : List RStr) ≠ [] ∧
    (splitOnChar ',' (joinSep ',' [['a'], ['b']])).map rustTrim = [['a'], ['b']] :=
  ⟨by decide, tag_roundtrip [['a'], ['b']] (by decide) (by decide)⟩

/-- C2 counterexample: the single tag `"a,b"` is non-empty and has no leading
or trailing whitespace, yet the round trip splits it into two tags, so the
stated precondition is not sufficient on its own. -/
theorem tag_roundtrip_counterexample :
    (∀ t ∈ ([['a', ',', 'b']] : List RStr), t ≠ [] ∧ rustTrim t = t) ∧
    (splitOnChar ',' (joinSep ',' [['a', ',', 'b']])).map rustTrim ≠
      [['a', ',', 'b']] := by
  decide

/-- A concrete in-editor state used by several witnesses below. -/
def samplePost : Post Nat Nat where
  content := ['B']
  parsed := []
  name := ['T']
  description := ['s']
  tags := ['a']
  image_url := ['u']
  savepath := none
  selected_tab := .content
  date := ⟨2024, 1, 15⟩
  show_picker := false
  time := .hms 10 30 0 .h24
  show_picker_time := false
  image := none

/-- A concrete environment used by several witnesses below. -/
def sampleEnv : Env Nat Nat where
  selectFileResult := none
  saveFileResult := fun _ => none
  readFile := fun _ => .openErr
  createOk := fun _ => true
  fetchResult := fun _ => none
  parse := fun s => [s.length]
  todayDate := ⟨2024, 1, 15⟩
  nowHour := 10
  nowMinute := 30
  nowSecond := 0

/-- C4. If the tags string of the editor state is empty, a successful save
conversion produces a tag sequence with exactly one element, the empty
string. -/
theorem empty_tags_one_empty_tag (Item Handle : Type) (p : Post Item Handle)
    (bp : BlogPost) (htags : p.tags = []) (hsave : blogPostFromPost p = some bp) :
    bp.tags = [[]] := by
  simp only [blogPostFromPost, htags] at hsave
  split at hsave
  · simp only [Option.some.injEq] at hsave
    subst hsave
    rfl
  · cases hsave

/-- C4 witness: a concrete state with an empty tags string saves to a
document whose tag list is `[""]`. -/
theorem empty_tags_one_empty_tag_witness :
    blogPostFromPost ({ samplePost with tags := [] } : Post Nat Nat) =
      some ⟨['T'], ['B'], ['u'], ['s'], ⟨2024, 1, 15, 10, 30, 0⟩, [[]]⟩ ∧
    (⟨['T'], ['B'], ['u'], ['s'], ⟨2024, 1, 15, 10, 30, 0⟩, [[]]⟩ : BlogPost).tags =
      [[]] := by
  refine ⟨by decide, ?_⟩
  exact empty_tags_one_empty_tag Nat Nat { samplePost with tags := [] } _ rfl
    (by decide)

/-- The timestamp a successful save conversion stores: the editor's calendar
date combined with the hour/minute/second parsed from the rendered clock
time. -/
theorem blogPostFromPost_timestamp (Item Handle : Type) (p : Post Item Handle)
    (bp : BlogPost) (hsave : blogPostFromPost p = some bp) :
    bp.timestamp = ⟨p.date.year, p.date.month, p.date.day,
      (parseTimeComponents p.time.render).1,
      (parseTimeComponents p.time.render).2.1,
      (parseTimeComponents p.time.render).2.2⟩ := by
  simp only [blogPostFromPost] at hsave
  split at hsave
  next ts hw =>
    simp only [withYmdAndHms] at hw
    split at hw
    next =>
      simp only [Option.some.injEq] at hw hsave
      subst hw
      subst hsave
      rfl
    next => cases hw
  next => cases hsave

/-- C5. In the save conversion, each missing or unparseable component of the
rendered time-of-day string individually defaults to 0: if the string yields
no piece at an index (fewer than three `:'-separated pieces) or the piece
fails to parse as a number, the corresponding timestamp component is 0. -/
theorem time_components_default (Item Handle : Type) (p : Post Item Handle)
    (bp : BlogPost) (hsave : blogPostFromPost p = some bp) :
    (((splitOnChar ':' p.time.render).length ≤ 1 ∨
        parseU32 ((splitOnChar ':' p.time.render).getD 1 ['0']) = none) →
      bp.timestamp.minute = 0) ∧
    (((splitOnChar ':' p.time.render).length ≤ 2 ∨
        parseU32 ((splitOnChar ':' p.time.render).getD 2 ['0']) = none) →
      bp.timestamp.second = 0) ∧
    (parseU32 ((splitOnChar ':' p.time.render).getD 0 ['0']) = none →
      bp.timestamp.hour = 0) := by
  rw [blogPostFromPost_timestamp Item Handle p bp hsave]
  simp only [parseTimeComponents]
  refine ⟨?_, ?_, ?_⟩
  · rintro (hlen | hnone)
    · rw [List.getD_eq_default _ _ hlen]
      decide
    · rw [hnone]
      rfl
  · rintro (hlen | hnone)
    · rw [List.getD_eq_default _ _ hlen]
      decide
    · rw [hnone]
      rfl
  · intro hnone
    rw [hnone]
    rfl

/-- C5 witness: the 12-hour time `08:30 AM` renders with an unparseable
minute piece and a missing seconds piece, so both default to 0. -/
theorem time_components_default_witness :
    blogPostFromPost ({ samplePost with time := .hm 8 30 .am } : Post Nat Nat) =
      some ⟨['T'], ['B'], ['u'], ['s'], ⟨2024, 1, 15, 8, 0, 0⟩, [['a']]⟩ ∧
    (⟨2024, 1, 15, 8, 0, 0⟩ : Timestamp).minute = 0 ∧
    (⟨2024, 1, 15, 8, 0, 0⟩ : Timestamp).second = 0 := by
  refine ⟨by decide, ?_, ?_⟩
  · exact (time_components_default Nat Nat { samplePost with time := .hm 8 30 .am }
      ⟨['T'], ['B'], ['u'], ['s'], ⟨2024, 1, 15, 8, 0, 0⟩, [['a']]⟩ (by decide)).1
      (Or.inr (by decide))
  · exact (time_components_default Nat Nat { samplePost with time := .hm 8 30 .am }
      ⟨['T'], ['B'], ['u'], ['s'], ⟨2024, 1, 15, 8, 0, 0⟩, [['a']]⟩ (by decide)).2.1
      (Or.inl (by decide))

/-- C6. On a date/time combination that does not form a valid calendar
timestamp, the save conversion panics (`none`): there is no recoverable error
path and no default value. -/
theorem invalid_date_panics (Item Handle : Type) (p : Post Item Handle)
    (hinvalid : validYmdHms p.date.year p.date.month p.date.day
      (parseTimeComponents p.time.render).1
      (parseTimeComponents p.time.render).2.1
      (parseTimeComponents p.time.render).2.2 = false) :
    blogPostFromPost p = none := by
  simp only [blogPostFromPost, withYmdAndHms, hinvalid]
  simp

/-- C6 witness: February 30 panics the save conversion. -/
theorem invalid_date_panics_witness :
    blogPostFromPost ({ samplePost with date := ⟨2023, 2, 30⟩ } : Post Nat Nat) =
      none :=
  invalid_date_panics Nat Nat { samplePost with date := ⟨2023, 2, 30⟩ } (by decide)

/-- C3. After `Post::update` processes any event without panicking, the
stored markdown preview equals the (deterministic) markdown parse of the
current body text — the preview is never observed stale. -/
theorem preview_invariant (Item Handle : Type) (env : Env Item Handle)
    (st : Post Item Handle) (msg : Message) (st' : Post Item Handle)
    (ws : List FileWrite) (h : update env st msg = some (st', ws)) :
    st'.parsed = env.parse st'.content := by
  rw [update] at h
  rcases hstep : updateStep env st msg with _ | ⟨st1, ws1⟩ <;> rw [hstep] at h
  · cases h
  · simp only [Option.map_some'] at h
    cases h
    rfl

/-- C3 witness: an unrelated edit (the title) still leaves the preview equal
to the parse of the current body. -/
theorem preview_invariant_witness :
    update sampleEnv samplePost (.editTitle ['X']) =
      some ({ samplePost with name := ['X'], parsed := [1] }, []) ∧
    ({ samplePost with name := ['X'], parsed := [1] } : Post Nat Nat).parsed =
      sampleEnv.parse ({ samplePost with name := ['X'], parsed := [1] } :
        Post Nat Nat).content :=
  ⟨rfl, preview_invariant Nat Nat sampleEnv samplePost (.editTitle ['X'])
    { samplePost with name := ['X'], parsed := [1] } [] rfl⟩

/-- C7. From the default empty state, `EditTitle("Hello")`, `EditContent`
inserting `"World"`, then `SaveFile` with a cancelled path dialog leaves
`savepath` as `None`, performs no file write, and changes nothing else beyond
the two edits and the unconditional preview recomputation. -/
theorem savefile_cancelled_scenario (Item Handle : Type) (env : Env Item Handle)
    (hcancel : env.saveFileResult ['H', 'e', 'l', 'l', 'o'] = none) :
    updates env (defaultPost env)
      [.editTitle ['H', 'e', 'l', 'l', 'o'],
       .editContent (fun s => s ++ ['W', 'o', 'r', 'l', 'd']),
       .saveFile] =
      some ({ defaultPost env with
                name := ['H', 'e', 'l', 'l', 'o'],
                content := ['W', 'o', 'r', 'l', 'd'],
                parsed := env.parse ['W', 'o', 'r', 'l', 'd'] }, []) := by
  simp [updates, update, updateStep, defaultPost, hcancel]

/-- C7 witness: the scenario in a concrete environment whose save dialog is
cancelled. -/
theorem savefile_cancelled_scenario_witness :
    sampleEnv.saveFileResult ['H', 'e', 'l', 'l', 'o'] = none ∧
    updates sampleEnv (defaultPost sampleEnv)
      [.editTitle ['H', 'e', 'l', 'l', 'o'],
       .editContent (fun s => s ++ ['W', 'o', 'r', 'l', 'd']),
       .saveFile] =
      some ({ defaultPost sampleEnv with
                name := ['H', 'e', 'l', 'l', 'o'],
                content := ['W', 'o', 'r', 'l', 'd'],
                parsed := sampleEnv.parse ['W', 'o', 'r', 'l', 'd'] }, []) :=
  ⟨rfl, savefile_cancelled_scenario Nat Nat sampleEnv rfl⟩

/-- C8 (amended). `SaveToFile` with a cancelled path dialog performs no file
write and fails silently, but the state is not fully unchanged: `savepath` is
unconditionally overwritten with `None`, so a previously associated save path
is dropped (and the preview is recomputed as after every event). -/
theorem savetofile_cancelled (Item Handle : Type) (env : Env Item Handle)
    (st : Post Item Handle) (hcancel : env.saveFileResult st.name = none) :
    update env st .saveToFile =
      some ({ st with savepath := none, parsed := env.parse st.content }, []) := by
  simp [update, updateStep, hcancel]

/-- C8 witness: a concrete state with an associated save path, a cancelled
dialog. -/
theorem savetofile_cancelled_witness :
    sampleEnv.saveFileResult
        ({ samplePost with savepath := some ['p'] } : Post Nat Nat).name = none ∧
    update sampleEnv ({ samplePost with savepath := some ['p'] } : Post Nat Nat)
        .saveToFile =
      some ({ samplePost with savepath := none, parsed := [1] }, []) :=
  ⟨rfl, savetofile_cancelled Nat Nat sampleEnv
    { samplePost with savepath := some ['p'] } rfl⟩

/-- C8 counterexample: with a previously associated save path and a cancelled
dialog, `SaveToFile` does not keep the path associated — `savepath` drops
from `Some "p"` to `None` (though indeed no write occurs). -/
theorem savetofile_cancelled_counterexample :
    ({ samplePost with savepath := some ['p'] } : Post Nat Nat).savepath =
      some ['p'] ∧
    sampleEnv.saveFileResult
        ({ samplePost with savepath := some ['p'] } : Post Nat Nat).name = none ∧
    (update sampleEnv ({ samplePost with savepath := some ['p'] } : Post Nat Nat)
        .saveToFile).map (fun r => (r.1.savepath, r.2)) = some (none, []) :=
  ⟨rfl, rfl, rfl⟩

/-- C9. `LoadFile` on a chosen path holding a valid readable post file sets
`savepath` to the chosen path, preserves the previously active tab, and
replaces every other field wholesale with the loaded document's values (the
preview recomputed from the loaded body; transient pickers and image handle
at their defaults via the load conversion). -/
theorem loadfile_valid (Item Handle : Type) (env : Env Item Handle)
    (st : Post Item Handle) (path : RStr) (bp : BlogPost)
    (hsel : env.selectFileResult = some path)
    (hread : env.readFile path = .ok bp) :
    update env st .loadFile =
      some ({ (postFromBlogPost bp : Post Item Handle) with
                savepath := some path,
                selected_tab := st.selected_tab,
                parsed := env.parse bp.body }, []) := by
  simp [update, updateStep, loadFromFile, hsel, hread, postFromBlogPost]

/-- C9 witness: loading a concrete document in a concrete environment. -/
theorem loadfile_valid_witness :
    ({ sampleEnv with
        selectFileResult := some ['p'],
        readFile := fun _ =>
          .ok ⟨['T'], ['B'], ['u'], ['s'], ⟨2024, 1, 15, 10, 30, 0⟩, [['a']]⟩ } :
      Env Nat Nat).selectFileResult = some ['p'] ∧
    update
        { sampleEnv with
          selectFileResult := some ['p'],
          readFile := fun _ =>
            .ok ⟨['T'], ['B'], ['u'], ['s'], ⟨2024, 1, 15, 10, 30, 0⟩, [['a']]⟩ }
        { samplePost with selected_tab := .meta } .loadFile =
      some ({ (postFromBlogPost
                  ⟨['T'], ['B'], ['u'], ['s'], ⟨2024, 1, 15, 10, 30, 0⟩, [['a']]⟩ :
                  Post Nat Nat) with
                savepath := some ['p'],
                selected_tab := TabID.meta,
                parsed := [1] }, []) :=
  ⟨rfl, loadfile_valid Nat Nat _ { samplePost with selected_tab := .meta } ['p']
    ⟨['T'], ['B'], ['u'], ['s'], ⟨2024, 1, 15, 10, 30, 0⟩, [['a']]⟩ rfl rfl⟩

/-- C10. `LoadFile` on a chosen path whose file cannot be opened does not
abort: the whole state (unsaved edits included) is silently replaced by the
default empty editor state, with `savepath` set to the chosen unreadable path
and the active tab preserved. -/
theorem loadfile_open_failure (Item Handle : Type) (env : Env Item Handle)
    (st : Post Item Handle) (path : RStr)
    (hsel : env.selectFileResult = some path)
    (hread : env.readFile path = .openErr) :
    update env st .loadFile =
      some ({ defaultPost env with
                savepath := some path,
                selected_tab := st.selected_tab,
                parsed := env.parse [] }, []) := by
  simp [update, updateStep, loadFromFile, hsel, hread, defaultPost]

/-- C10 witness: a concrete unreadable path erases a concrete edited state. -/
theorem loadfile_open_failure_witness :
    ({ sampleEnv with selectFileResult := some ['p'] } : Env Nat Nat).readFile
        ['p'] = .openErr ∧
    update ({ sampleEnv with selectFileResult := some ['p'] } : Env Nat Nat)
        { samplePost with selected_tab := .meta } .loadFile =
      some ({ defaultPost { sampleEnv with selectFileResult := some ['p'] } with
                savepath := some ['p'],
                selected_tab := TabID.meta,
                parsed := [0] }, []) :=
  ⟨rfl, loadfile_open_failure Nat Nat _ { samplePost with selected_tab := .meta }
    ['p'] rfl rfl⟩
